import Mathlib

/-!
Shallow embedding of the renderer-side UI logic of the podman-desktop
excerpt: the pod-to-Kubernetes deployment wizard
(`DeployPodToKube.svelte`), the pod-details view (`PodDetails.svelte`),
and the resources settings page (the preferences component in the
unnamed source file).  JavaScript objects are modelled as Lean
structures; optional or possibly-absent fields become `Option`;
JavaScript truthiness of numbers and strings is made explicit; bridge
(`window.*`) calls are modelled by oracles describing what each call
returns or throws.
-/

/-! ## JavaScript truthiness helpers -/

/-- Truthiness of an optional JavaScript number: `undefined` and `0` are falsy. -/
def truthyNat (o : Option Nat) : Bool := o.getD 0 != 0

/-- Truthiness of an optional JavaScript string: `undefined` and the empty string are falsy. -/
def truthyStr (o : Option String) : Bool := o.getD "" != ""

/-- The JavaScript expression `a || b` for an optional string `a` and a default `b`. -/
def jsOrStr (a : Option String) (b : String) : String :=
  if truthyStr a then a.getD "" else b

/-! ## Pod body data model (result of parsing the generated kube YAML) -/

/-- A timestamp value: `isDate` records whether it has been converted to a
JavaScript `Date` object, `v` the underlying instant. -/
structure TimeVal where
  isDate : Bool
  v : Nat
  deriving DecidableEq, Repr

/-- The JavaScript expression `new Date(t)`. -/
def newDate (t : TimeVal) : TimeVal := { isDate := true, v := t.v }

/-- A container port of the pod body.  `rest` stands for all further fields
the code never touches. -/
structure ContainerPort where
  name : Option String
  hostPort : Option Nat
  containerPort : Nat
  protocol : Option String
  rest : String
  deriving DecidableEq, Repr

/-- A container of the pod body.  `volumeMounts` is opaque (`some` means the
field is present), `rest` stands for all untouched fields. -/
structure Container where
  volumeMounts : Option String
  ports : List ContainerPort
  rest : String
  deriving DecidableEq, Repr

/-- The pod metadata.  `rest` stands for all untouched fields. -/
structure PodMetadata where
  name : String
  creationTimestamp : Option TimeVal
  rest : String
  deriving DecidableEq, Repr

/-- The pod spec.  `volumes` is opaque (`some` means the field is present). -/
structure PodSpec where
  volumes : Option String
  containers : List Container
  rest : String
  deriving DecidableEq, Repr

/-- The parsed pod body (`bodyPod` in the component). -/
structure PodBody where
  metadata : PodMetadata
  spec : Option PodSpec
  rest : String
  deriving DecidableEq, Repr

/-! ## Generated Kubernetes Service and OpenShift Route objects -/

/-- One entry of a generated service's `spec.ports`. -/
structure ServicePort where
  name : Option String
  port : Nat
  protocol : String
  targetPort : Nat
  deriving DecidableEq, Repr

/-- A generated Kubernetes Service object. -/
structure Service where
  apiVersion : String
  kind : String
  name : String
  nameSpace : String
  ports : List ServicePort
  selectorApp : String
  deriving DecidableEq, Repr

/-- A generated OpenShift Route object. -/
structure RouteObj where
  apiVersion : String
  kind : String
  name : String
  nameSpace : String
  targetPort : Nat
  toKind : String
  toName : String
  deriving DecidableEq, Repr

/-- The service built inside `deployToKube` for one container port whose
`hostPort` is truthy. -/
def mkService (podName currentNamespace : String) (port : ContainerPort) : Service :=
  { apiVersion := "v1"
    kind := "Service"
    name := podName ++ "-" ++ toString (port.hostPort.getD 0)
    nameSpace := currentNamespace
    ports := [{ name := port.name
                port := port.hostPort.getD 0
                protocol := jsOrStr port.protocol "TCP"
                targetPort := port.containerPort }]
    selectorApp := podName }

/-- The route built inside `deployToKube` for one container port whose
`hostPort` is truthy, when the console URL is set and routes are enabled. -/
def mkRoute (podName currentNamespace : String) (port : ContainerPort) : RouteObj :=
  { apiVersion := "route.openshift.io/v1"
    kind := "Route"
    name := podName ++ "-" ++ toString (port.hostPort.getD 0)
    nameSpace := currentNamespace
    targetPort := port.containerPort
    toKind := "Service"
    toName := podName ++ "-" ++ toString (port.hostPort.getD 0) }

/-- The `container?.ports?.forEach` loop of `deployToKube`: walks the ports in
order; for each truthy `hostPort` it pushes a service (and, when
`makeRoutes`, a route) and deletes the `hostPort` field.  Returns the
rewritten ports, the pushed services and the pushed routes, in order. -/
def processPorts (podName currentNamespace : String) (makeRoutes : Bool) :
    List ContainerPort → List ContainerPort × List Service × List RouteObj
  | [] => ([], [], [])
  | port :: restPorts =>
    let r := processPorts podName currentNamespace makeRoutes restPorts
    if truthyNat port.hostPort then
      ({ port with hostPort := none } :: r.1,
       mkService podName currentNamespace port :: r.2.1,
       (if makeRoutes then [mkRoute podName currentNamespace port] else []) ++ r.2.2)
    else
      (port :: r.1, r.2.1, r.2.2)

/-- The per-container body of the `bodyPod.spec?.containers?.forEach` loop:
deletes `volumeMounts` and processes the ports. -/
def processContainer (podName currentNamespace : String) (makeRoutes : Bool)
    (container : Container) : Container × List Service × List RouteObj :=
  let r := processPorts podName currentNamespace makeRoutes container.ports
  ({ container with volumeMounts := none, ports := r.1 }, r.2.1, r.2.2)

/-- The `bodyPod.spec?.containers?.forEach` loop over all containers,
concatenating the collected services and routes in iteration order. -/
def processContainers (podName currentNamespace : String) (makeRoutes : Bool) :
    List Container → List Container × List Service × List RouteObj
  | [] => ([], [], [])
  | container :: restContainers =>
    let r1 := processContainer podName currentNamespace makeRoutes container
    let r2 := processContainers podName currentNamespace makeRoutes restContainers
    (r1.1 :: r2.1, r1.2.1 ++ r2.2.1, r1.2.2 ++ r2.2.2)

/-- The `if (bodyPod?.spec?.volumes) delete bodyPod.spec.volumes` statement. -/
def deleteVolumes (pod : PodBody) : PodBody :=
  match pod.spec with
  | some sp =>
    match sp.volumes with
    | some _ => { pod with spec := some { sp with volumes := none } }
    | none => pod
  | none => pod

/-- The `if (bodyPod?.metadata?.creationTimestamp) ... new Date(...)`
statement (a parsed timestamp is a `Date`, hence truthy whenever present). -/
def convertCreationTimestamp (pod : PodBody) : PodBody :=
  match pod.metadata.creationTimestamp with
  | some t =>
    { pod with metadata := { pod.metadata with creationTimestamp := some (newDate t) } }
  | none => pod

/-- The result of the pure, pre-bridge part of `deployToKube`: the rewritten
pod body and the `servicesToCreate` and `routesToCreate` arrays. -/
structure PrepResult where
  bodyPod : PodBody
  servicesToCreate : List Service
  routesToCreate : List RouteObj
  deriving DecidableEq, Repr

/-- The pure part of `deployToKube`: delete `spec.volumes`; when
`deployUsingServices`, rewrite the containers while collecting services and
routes (routes only when `openshiftConsoleURL` is truthy and
`deployUsingRoutes`); finally convert `metadata.creationTimestamp`. -/
def prepareDeploy (deployUsingServices deployUsingRoutes : Bool)
    (openshiftConsoleURL : Option String) (currentNamespace : String)
    (pod : PodBody) : PrepResult :=
  let pod1 := deleteVolumes pod
  let r :=
    if deployUsingServices then
      match pod1.spec with
      | some sp =>
        let pr := processContainers pod1.metadata.name currentNamespace
          (truthyStr openshiftConsoleURL && deployUsingRoutes) sp.containers
        ({ pod1 with spec := some { sp with containers := pr.1 } }, pr.2.1, pr.2.2)
      | none => (pod1, ([] : List Service), ([] : List RouteObj))
    else (pod1, ([] : List Service), ([] : List RouteObj))
  { bodyPod := convertCreationTimestamp r.1
    servicesToCreate := r.2.1
    routesToCreate := r.2.2 }

/-! ## Bridge calls issued by `deployToKube` and the resulting state -/

/-- A bridge (`window.*`) creation call issued inside the `try` block of
`deployToKube`. -/
inductive BridgeCall where
  | createPod (nameSpace : String) (body : PodBody)
  | createService (nameSpace : String) (svc : Service)
  | createRoute (nameSpace : String) (route : RouteObj)
  deriving DecidableEq, Repr

/-- The sequence of bridge calls the `try` block of `deployToKube` attempts:
the pod first, then each collected service, then each collected route. -/
def callList (currentNamespace : String) (prep : PrepResult) : List BridgeCall :=
  BridgeCall.createPod currentNamespace prep.bodyPod ::
    (prep.servicesToCreate.map (BridgeCall.createService currentNamespace) ++
     prep.routesToCreate.map (BridgeCall.createRoute currentNamespace))

/-- Issue the calls in order against an oracle `fail` telling which calls
throw (with which error).  Returns the calls actually issued and the first
thrown error, if any; after a throw no further call is issued. -/
def issueCalls (fail : BridgeCall → Option String) :
    List BridgeCall → List BridgeCall × Option String
  | [] => ([], none)
  | c :: cs =>
    match fail c with
    | some e => ([c], some e)
    | none =>
      let r := issueCalls fail cs
      (c :: r.1, r.2)

/-- The component state observable after `deployToKube` returns: the flags,
the error string, whether `setInterval` was started and with which delay,
and the trace of bridge calls issued. -/
structure DeployState where
  deployStarted : Bool
  deployFinished : Bool
  deployError : String
  intervalActive : Bool
  intervalDelay : Option Nat
  trace : List BridgeCall
  deriving DecidableEq, Repr

/-- The whole of `deployToKube`: prepare the pod body, services and routes,
then run the `try` block; on success start the 2000 ms polling interval, on
a throw record the error and reset the flags. -/
def deployToKube (fail : BridgeCall → Option String)
    (deployUsingServices deployUsingRoutes : Bool)
    (openshiftConsoleURL : Option String) (currentNamespace : String)
    (pod : PodBody) : DeployState :=
  let prep := prepareDeploy deployUsingServices deployUsingRoutes
    openshiftConsoleURL currentNamespace pod
  let r := issueCalls fail (callList currentNamespace prep)
  match r.2 with
  | some e =>
    { deployStarted := false, deployFinished := false, deployError := e,
      intervalActive := false, intervalDelay := none, trace := r.1 }
  | none =>
    { deployStarted := true, deployFinished := false, deployError := "",
      intervalActive := true, intervalDelay := some 2000, trace := r.1 }

/-! ## Status polling (`updatePod`, the interval, `onDestroy`) -/

/-- The polling-relevant component state: whether the interval is still
active, the `deployFinished` flag and the last fetched pod phase. -/
structure PollState where
  intervalActive : Bool
  deployFinished : Bool
  createdPodPhase : Option String
  deriving DecidableEq, Repr

/-- One run of `updatePod`: store the freshly read pod; when its
`status?.phase` is `Running`, clear the interval and set `deployFinished`. -/
def updatePod (phase : Option String) (s : PollState) : PollState :=
  if phase == some "Running" then
    { intervalActive := false, deployFinished := true, createdPodPhase := phase }
  else
    { s with createdPodPhase := phase }

/-- Run the polling interval over a sequence of fetched phases: each tick
runs `updatePod` while the interval is active; once cleared, no further
tick is processed. -/
def runPolling : PollState → List (Option String) → PollState
  | s, [] => s
  | s, p :: ps => if s.intervalActive then runPolling (updatePod p s) ps else s

/-- The `onDestroy` handler of the wizard: `clearInterval(updatePodInterval)`. -/
def clearOnDestroy (s : PollState) : PollState := { s with intervalActive := false }

/-! ## `onMount` of the deployment wizard -/

/-- The `data` object of the `console-public` config map. -/
structure ConfigMapData where
  consoleURL : Option String
  deriving DecidableEq, Repr

/-- A config map as returned by `kubernetesReadNamespacedConfigMap`. -/
structure ConfigMap where
  data : Option ConfigMapData
  deriving DecidableEq, Repr

/-- The component state observable after `onMount` of the wizard. -/
structure MountState where
  currentNamespace : String
  allNamespaces : Option String
  openshiftConsoleURL : Option String
  mountCompleted : Bool
  deriving DecidableEq, Repr

/-- `onMount` of the deployment wizard, from the point where the current
namespace is read: defaults a falsy namespace to `default`; swallows an
error from `kubernetesListNamespaces` (leaving `allNamespaces` unset) and
an error from the config-map read (leaving `openshiftConsoleURL` unset). -/
def onMountDeploy (nsFromKube : Option String)
    (listNamespacesResult : Except String String)
    (readConfigMapResult : Except String ConfigMap) : MountState :=
  let ns0 := nsFromKube.getD ""
  let currentNamespace := if ns0 == "" then "default" else ns0
  let allNamespaces :=
    match listNamespacesResult with
    | .ok v => some v
    | .error _ => none
  let openshiftConsoleURL :=
    match readConfigMapResult with
    | .ok cm => (cm.data.map (fun d => d.consoleURL)).join
    | .error _ => none
  { currentNamespace := currentNamespace, allNamespaces := allNamespaces,
    openshiftConsoleURL := openshiftConsoleURL, mountCompleted := true }

/-! ## Resources settings page (preferences component) -/

/-- An entry of the `restartingQueue` (`IConnectionRestart`). -/
structure IConnectionRestart where
  provider : String
  container : String
  loggerHandlerKey : Nat
  deriving DecidableEq, Repr

/-- An entry of the `containerConnectionStatus` map (`IConnectionStatus`,
the fields this component writes in its store subscription). -/
structure IConnectionStatus where
  inProgress : Bool
  action : Option String
  status : String
  deriving DecidableEq, Repr

/-- Modelled from the spec: `getProviderConnectionName` lives in the `Util`
module, which is not part of the excerpt; the spec only says connections
belong to a provider, so it is modelled as the canonical pairing of the
provider name and the connection name. -/
def getProviderConnectionName (providerName connectionName : String) : String :=
  providerName ++ "-" ++ connectionName

/-- `getContainerRestarting`: returns the first queue entry whose `provider`
and `container` both match, and, when one is found, re-filters the queue
keeping only the entries whose `provider` AND `container` both differ. -/
def getContainerRestarting (restartingQueue : List IConnectionRestart)
    (provider container : String) :
    Option IConnectionRestart × List IConnectionRestart :=
  let containerToRestart :=
    (restartingQueue.filter (fun c => c.provider == provider && c.container == container)).head?
  match containerToRestart with
  | some found =>
    (some found,
     restartingQueue.filter (fun c => c.provider != provider && c.container != container))
  | none => (none, restartingQueue)

/-- Lookup in the `containerConnectionStatus` map (a JavaScript `Map`,
modelled as an association list in insertion order). -/
def mapGet (m : List (String × IConnectionStatus)) (k : String) : Option IConnectionStatus :=
  (m.find? (fun kv => kv.1 == k)).map (fun kv => kv.2)

/-- `Map.set`: replace in place when the key exists, append otherwise. -/
def mapSet (m : List (String × IConnectionStatus)) (k : String) (v : IConnectionStatus) :
    List (String × IConnectionStatus) :=
  if (m.find? (fun kv => kv.1 == k)).isSome then
    m.map (fun kv => if kv.1 == k then (k, v) else kv)
  else m ++ [(k, v)]

/-- A container or Kubernetes provider connection (the `name` and `status`
fields the subscription uses). -/
structure ConnInfo where
  name : String
  status : String
  deriving DecidableEq, Repr

/-- A provider as delivered by the `providerInfos` store. -/
structure ProviderInfo where
  internalId : String
  name : String
  containerConnections : List ConnInfo
  kubernetesConnections : List ConnInfo
  deriving DecidableEq, Repr

/-- The mutable state the subscription touches: the status map, the
restarting queue, and the log of `startConnectionProvider` invocations
(provider internal id, connection name, logger handler key). -/
structure PageState where
  containerConnectionStatus : List (String × IConnectionStatus)
  restartingQueue : List IConnectionRestart
  startedConnections : List (String × String × Nat)
  deriving DecidableEq, Repr

/-- The per-connection body of the store subscription (identical for
container and Kubernetes connections): update the map only if the
connection has no entry yet or its stored status differs; look the
connection up in the restarting queue and either mark it as an in-progress
restart (invoking `startConnectionProvider`) or record the plain status. -/
def processConnection (providerInternalId providerName : String) (conn : ConnInfo)
    (st : PageState) : PageState :=
  let key := getProviderConnectionName providerName conn.name
  let needsUpdate :=
    match mapGet st.containerConnectionStatus key with
    | none => true
    | some existing => existing.status != conn.status
  if needsUpdate then
    let r := getContainerRestarting st.restartingQueue providerInternalId conn.name
    match r.1 with
    | some containerToRestart =>
      { containerConnectionStatus :=
          mapSet st.containerConnectionStatus key
            { inProgress := true, action := some "restart", status := conn.status }
        restartingQueue := r.2
        startedConnections := st.startedConnections ++
          [(providerInternalId, conn.name, containerToRestart.loggerHandlerKey)] }
    | none =>
      { containerConnectionStatus :=
          mapSet st.containerConnectionStatus key
            { inProgress := false, action := none, status := conn.status }
        restartingQueue := r.2
        startedConnections := st.startedConnections }
  else st

/-- The per-provider part of the subscription: first every container
connection, then every Kubernetes connection, in order. -/
def processProvider (p : ProviderInfo) (st : PageState) : PageState :=
  let st1 := p.containerConnections.foldl
    (fun s c => processConnection p.internalId p.name c s) st
  p.kubernetesConnections.foldl
    (fun s c => processConnection p.internalId p.name c s) st1

/-- One `providerInfos` store update: the subscription walks all providers. -/
def onProvidersUpdate (providers : List ProviderInfo) (st : PageState) : PageState :=
  providers.foldl (fun s p => processProvider p s) st

/-! ## Pod-details view -/

/-- An element of the `podsInfos` store (the fields the find uses; `rest`
stands for the full pod payload handed to `getPodInfoUI`). -/
structure PodInfo where
  Name : String
  engineId : String
  kind : String
  rest : String
  deriving DecidableEq, Repr

/-- The `podsInfos.subscribe` callback of `PodDetails`: find the element
matching the three props; when found, derive the displayed pod through
`getPodInfoUI` (whose throw is caught, leaving the displayed pod as it
was); otherwise leave the displayed pod unchanged.  `getPodInfoUI` lives in
`pod-utils`, outside the excerpt, so it is passed in as an oracle. -/
def podDetailsOnStoreUpdate (getPodInfoUI : PodInfo → Except String String)
    (podName engineId kind : String) (pod : Option String)
    (pods : List PodInfo) : Option String :=
  match pods.find? (fun podInPods =>
      podInPods.Name == podName && podInPods.engineId == engineId && kind == podInPods.kind) with
  | some matchingPod =>
    match getPodInfoUI matchingPod with
    | .ok ui => some ui
    | .error _ => pod
  | none => pod

/-- The subscription-related state of `PodDetails`. -/
structure PodDetailsState where
  pod : Option String
  subscribed : Bool
  deriving DecidableEq, Repr

/-- `onDestroy` of `PodDetails`: release the store subscription. -/
def podDetailsOnDestroy (s : PodDetailsState) : PodDetailsState :=
  { s with subscribed := false }

/-! ## Helper lemmas -/

/-- Closed form of the port loop: rewritten ports, collected services and
collected routes expressed with `map` and `filter`. -/
theorem processPorts_eq (podName currentNamespace : String) (makeRoutes : Bool)
    (ps : List ContainerPort) :
    processPorts podName currentNamespace makeRoutes ps =
      (ps.map (fun p => if truthyNat p.hostPort then { p with hostPort := none } else p),
       (ps.filter (fun p => truthyNat p.hostPort)).map (mkService podName currentNamespace),
       if makeRoutes then
         (ps.filter (fun p => truthyNat p.hostPort)).map (mkRoute podName currentNamespace)
       else []) := by
  induction ps with
  | nil => by_cases hm : makeRoutes <;> simp [processPorts, hm]
  | cons p ps ih =>
    simp only [processPorts, ih]
    by_cases h : truthyNat p.hostPort <;> by_cases hm : makeRoutes <;>
      simp [h, hm]

/-- Closed form of the container loop. -/
theorem processContainers_eq (podName currentNamespace : String) (makeRoutes : Bool)
    (cs : List Container) :
    processContainers podName currentNamespace makeRoutes cs =
      (cs.map (fun c =>
         { c with
           volumeMounts := none
           ports := c.ports.map
             (fun p => if truthyNat p.hostPort then { p with hostPort := none } else p) }),
       cs.flatMap (fun c =>
         (c.ports.filter (fun p => truthyNat p.hostPort)).map
           (mkService podName currentNamespace)),
       if makeRoutes then
         cs.flatMap (fun c =>
           (c.ports.filter (fun p => truthyNat p.hostPort)).map
             (mkRoute podName currentNamespace))
       else []) := by
  induction cs with
  | nil => by_cases hm : makeRoutes <;> simp [processContainers, hm]
  | cons c cs ih =>
    simp only [processContainers, processContainer, ih, processPorts_eq]
    by_cases hm : makeRoutes <;> simp [hm]

/-- The calls actually issued form a prefix of the attempted call list. -/
theorem issueCalls_fst_take (fail : BridgeCall → Option String) (cs : List BridgeCall) :
    ∃ k, (issueCalls fail cs).1 = cs.take k := by
  induction cs with
  | nil => exact ⟨0, rfl⟩
  | cons c cs ih =>
    cases h : fail c with
    | some e => exact ⟨1, by simp [issueCalls, h]⟩
    | none =>
      obtain ⟨k, hk⟩ := ih
      exact ⟨k + 1, by simp [issueCalls, h, hk]⟩

/-- No error is recorded iff every attempted call succeeds. -/
theorem issueCalls_snd_none_iff (fail : BridgeCall → Option String) (cs : List BridgeCall) :
    (issueCalls fail cs).2 = none ↔ ∀ c ∈ cs, fail c = none := by
  induction cs with
  | nil => simp [issueCalls]
  | cons c cs ih =>
    cases h : fail c with
    | some e => simp [issueCalls, h]
    | none => simp [issueCalls, h, ih]

/-- When every call succeeds the whole list is issued. -/
theorem issueCalls_fst_of_none (fail : BridgeCall → Option String) (cs : List BridgeCall)
    (h : (issueCalls fail cs).2 = none) : (issueCalls fail cs).1 = cs := by
  induction cs with
  | nil => rfl
  | cons c cs ih =>
    cases hc : fail c with
    | some e => simp [issueCalls, hc] at h
    | none =>
      simp only [issueCalls, hc] at h ⊢
      simp [ih h]

/-! ## Claim theorems -/

/-- A concrete restarting queue with two entries of the same provider. -/
def rqC10 : List IConnectionRestart :=
  [{ provider := "p1", container := "c1", loggerHandlerKey := 1 },
   { provider := "p1", container := "c2", loggerHandlerKey := 2 }]

/-- Claim C10, counterexample: looking up the restart for provider `p1` and
container `c1` also removes the queued restart of the same provider's other
container `c2`, which the claim says is left intact. -/
theorem C10_counterexample :
    (getContainerRestarting rqC10 "p1" "c1").1 =
      some { provider := "p1", container := "c1", loggerHandlerKey := 1 } ∧
    IConnectionRestart.mk "p1" "c2" 2 ∈ rqC10 ∧
    IConnectionRestart.mk "p1" "c2" 2 ∉ (getContainerRestarting rqC10 "p1" "c1").2 := by
  decide

/-- Claim C10 as amended: `getContainerRestarting` returns the first entry
matching both arguments, and when one exists the new queue keeps exactly
the entries whose provider AND container both differ — every entry sharing
the provider or sharing the container name is removed. -/
theorem C10_amended (queue : List IConnectionRestart) (provider container : String)
    (e : IConnectionRestart)
    (hfound : (getContainerRestarting queue provider container).1.isSome = true) :
    (getContainerRestarting queue provider container).1 =
      (queue.filter (fun c => c.provider == provider && c.container == container)).head? ∧
    (e ∈ (getContainerRestarting queue provider container).2 ↔
      e ∈ queue ∧ e.provider ≠ provider ∧ e.container ≠ container) := by
  rcases hh : (queue.filter
      (fun c => c.provider == provider && c.container == container)).head? with _ | found
  · exfalso
    simp [getContainerRestarting, hh] at hfound
  · constructor
    · simp [getContainerRestarting, hh]
    · simp [getContainerRestarting, hh, List.mem_filter, bne_iff_ne, and_assoc]

/-- Claim C10, witness for the amended theorem at a concrete queue. -/
theorem C10_witness :
    (getContainerRestarting rqC10 "p1" "c1").1 =
      (rqC10.filter (fun c => c.provider == "p1" && c.container == "c1")).head? ∧
    (IConnectionRestart.mk "p2" "c9" 3 ∈ (getContainerRestarting rqC10 "p1" "c1").2 ↔
      IConnectionRestart.mk "p2" "c9" 3 ∈ rqC10 ∧
        (IConnectionRestart.mk "p2" "c9" 3).provider ≠ "p1" ∧
        (IConnectionRestart.mk "p2" "c9" 3).container ≠ "c1") :=
  C10_amended rqC10 "p1" "c1" ⟨"p2", "c9", 3⟩ (by decide)

/-- Claim C8: on mount, a falsy current namespace is replaced by `default`;
an error from `kubernetesListNamespaces` leaves `allNamespaces` unset; an
error from the `console-public` config-map read leaves
`openshiftConsoleURL` unset; and mounting completes in all those cases. -/
theorem C8_onMount_defaults (nsFromKube : Option String)
    (listNamespacesResult : Except String String)
    (readConfigMapResult : Except String ConfigMap) :
    ((nsFromKube = none ∨ nsFromKube = some "") →
      (onMountDeploy nsFromKube listNamespacesResult
        readConfigMapResult).currentNamespace = "default") ∧
    (∀ e, listNamespacesResult = .error e →
      (onMountDeploy nsFromKube listNamespacesResult readConfigMapResult).allNamespaces = none) ∧
    (∀ e, readConfigMapResult = .error e →
      (onMountDeploy nsFromKube listNamespacesResult
        readConfigMapResult).openshiftConsoleURL = none) ∧
    (onMountDeploy nsFromKube listNamespacesResult readConfigMapResult).mountCompleted = true := by
  refine ⟨?_, ?_, ?_, rfl⟩
  · rintro (rfl | rfl) <;> rfl
  · rintro e rfl
    simp [onMountDeploy]
  · rintro e rfl
    simp [onMountDeploy]

/-- Claim C8, witness: concrete mount with a missing namespace and both
fallible reads throwing. -/
theorem C8_witness :
    (onMountDeploy none (.error "forbidden") (.error "not-openshift")).currentNamespace =
      "default" ∧
    (onMountDeploy none (.error "forbidden") (.error "not-openshift")).allNamespaces = none ∧
    (onMountDeploy none (.error "forbidden") (.error "not-openshift")).openshiftConsoleURL =
      none ∧
    (onMountDeploy none (.error "forbidden") (.error "not-openshift")).mountCompleted = true := by
  obtain ⟨h1, h2, h3, h4⟩ :=
    C8_onMount_defaults none (.error "forbidden") (.error "not-openshift")
  exact ⟨h1 (Or.inl rfl), h2 "forbidden" rfl, h3 "not-openshift" rfl, h4⟩

/-- Claim C7: the pod-details subscription derives the displayed pod through
`getPodInfoUI` from the store element matching the three props; when no
element matches all three, the displayed pod is unchanged; and destroying
the component releases the subscription. -/
theorem C7_podDetails (getPodInfoUI : PodInfo → Except String String)
    (podName engineId kind : String) (pod : Option String) (pods : List PodInfo)
    (s : PodDetailsState) :
    (∀ matchingPod ui,
      pods.find? (fun podInPods =>
        podInPods.Name == podName && podInPods.engineId == engineId &&
          kind == podInPods.kind) = some matchingPod →
      getPodInfoUI matchingPod = .ok ui →
      podDetailsOnStoreUpdate getPodInfoUI podName engineId kind pod pods = some ui) ∧
    ((∀ p ∈ pods, ¬(p.Name = podName ∧ p.engineId = engineId ∧ kind = p.kind)) →
      podDetailsOnStoreUpdate getPodInfoUI podName engineId kind pod pods = pod) ∧
    (podDetailsOnDestroy s).subscribed = false := by
  refine ⟨?_, ?_, rfl⟩
  · intro matchingPod ui hfind hok
    simp [podDetailsOnStoreUpdate, hfind, hok]
  · intro hnone
    have hfind : pods.find? (fun podInPods =>
        podInPods.Name == podName && podInPods.engineId == engineId &&
          kind == podInPods.kind) = none := by
      apply List.find?_eq_none.mpr
      intro p hp
      have h := hnone p hp
      simp only [Bool.and_eq_true, beq_iff_eq, not_and]
      tauto
    simp [podDetailsOnStoreUpdate, hfind]

/-- Claim C7, witness: a concrete store update with one matching element. -/
theorem C7_witness :
    podDetailsOnStoreUpdate (fun p => .ok p.rest) "mypod" "podman1" "podman" none
      [{ Name := "mypod", engineId := "podman1", kind := "podman", rest := "payload" }] =
      some "payload" :=
  (C7_podDetails (fun p => .ok p.rest) "mypod" "podman1" "podman" none
      [{ Name := "mypod", engineId := "podman1", kind := "podman", rest := "payload" }]
      { pod := none, subscribed := true }).1
    { Name := "mypod", engineId := "podman1", kind := "podman", rest := "payload" }
    "payload" (by decide) rfl

/-- Once the interval is cleared, no further tick changes the state. -/
theorem runPolling_inactive (s : PollState) (l : List (Option String))
    (h : s.intervalActive = false) : runPolling s l = s := by
  cases l <;> simp [runPolling, h]

/-- While only non-`Running` phases are fetched, the interval stays active
and `deployFinished` stays false. -/
theorem runPolling_active_of_no_running (c0 : Option String) (pre : List (Option String))
    (h : ∀ p ∈ pre, p ≠ some "Running") :
    ∃ c, runPolling
        { intervalActive := true, deployFinished := false, createdPodPhase := c0 } pre =
      { intervalActive := true, deployFinished := false, createdPodPhase := c } := by
  induction pre generalizing c0 with
  | nil => exact ⟨c0, rfl⟩
  | cons p ps ih =>
    have hp : p ≠ some "Running" := h p (by simp)
    have hstep : updatePod p
        { intervalActive := true, deployFinished := false, createdPodPhase := c0 } =
        { intervalActive := true, deployFinished := false, createdPodPhase := p } := by
      simp [updatePod, hp]
    have hrest : ∀ q ∈ ps, q ≠ some "Running" := fun q hq => h q (by simp [hq])
    obtain ⟨c, hc⟩ := ih p hrest
    exact ⟨c, by simp [runPolling, hstep, hc]⟩

/-- The first fetched `Running` phase clears the interval and finishes the
deployment, whatever phases follow. -/
theorem runPolling_first_running (c0 : Option String) (pre post : List (Option String))
    (h : ∀ p ∈ pre, p ≠ some "Running") :
    runPolling { intervalActive := true, deployFinished := false, createdPodPhase := c0 }
        (pre ++ some "Running" :: post) =
      { intervalActive := false, deployFinished := true,
        createdPodPhase := some "Running" } := by
  induction pre generalizing c0 with
  | nil =>
    have hstop : runPolling
        { intervalActive := false, deployFinished := true, createdPodPhase := some "Running" }
        post =
        { intervalActive := false, deployFinished := true,
          createdPodPhase := some "Running" } :=
      runPolling_inactive _ _ rfl
    simp [runPolling, updatePod, hstop]
  | cons p ps ih =>
    have hp : p ≠ some "Running" := h p (by simp)
    have hstep : updatePod p
        { intervalActive := true, deployFinished := false, createdPodPhase := c0 } =
        { intervalActive := true, deployFinished := false, createdPodPhase := p } := by
      simp [updatePod, hp]
    have hrest : ∀ q ∈ ps, q ≠ some "Running" := fun q hq => h q (by simp [hq])
    simp only [List.cons_append, runPolling, hstep]
    simpa using ih p hrest

/-- Claim C4: a successful deployment starts the polling interval with a
2000 ms delay; the polling run sets `deployFinished` and clears the
interval at the first fetched `Running` phase (later ticks are inert) and
keeps polling while no `Running` phase arrives; and `onDestroy` always
clears the interval. -/
theorem C4_polling (fail : BridgeCall → Option String)
    (deployUsingServices deployUsingRoutes : Bool) (openshiftConsoleURL : Option String)
    (currentNamespace : String) (podBody : PodBody)
    (pre post : List (Option String)) (s : PollState) :
    ((deployToKube fail deployUsingServices deployUsingRoutes openshiftConsoleURL
        currentNamespace podBody).intervalDelay =
      if (deployToKube fail deployUsingServices deployUsingRoutes openshiftConsoleURL
          currentNamespace podBody).intervalActive then some 2000 else none) ∧
    ((∀ p ∈ pre, p ≠ some "Running") →
      runPolling { intervalActive := true, deployFinished := false, createdPodPhase := none }
          (pre ++ some "Running" :: post) =
        { intervalActive := false, deployFinished := true,
          createdPodPhase := some "Running" }) ∧
    ((∀ p ∈ pre, p ≠ some "Running") →
      (runPolling { intervalActive := true, deployFinished := false, createdPodPhase := none }
          pre).intervalActive = true ∧
      (runPolling { intervalActive := true, deployFinished := false, createdPodPhase := none }
          pre).deployFinished = false) ∧
    (clearOnDestroy s).intervalActive = false := by
  refine ⟨?_, ?_, ?_, rfl⟩
  · cases hr : (issueCalls fail (callList currentNamespace
        (prepareDeploy deployUsingServices deployUsingRoutes openshiftConsoleURL
          currentNamespace podBody))).2 <;>
      simp [deployToKube, hr]
  · exact runPolling_first_running none pre post
  · intro h
    obtain ⟨c, hc⟩ := runPolling_active_of_no_running none pre h
    simp [hc]

/-- Claim C4, witness: a concrete polling run that sees `Pending` and then
`Running`, with later phases ignored. -/
theorem C4_witness :
    runPolling { intervalActive := true, deployFinished := false, createdPodPhase := none }
        ([some "Pending"] ++ some "Running" :: [some "Succeeded"]) =
      { intervalActive := false, deployFinished := true,
        createdPodPhase := some "Running" } :=
  (C4_polling (fun _ => none) true true none "default"
      { metadata := { name := "pod", creationTimestamp := none, rest := "" },
        spec := none, rest := "" }
      [some "Pending"] [some "Succeeded"]
      { intervalActive := true, deployFinished := false, createdPodPhase := none }).2.1
    (by decide)

/-- The trace of issued calls is the first component of `issueCalls`,
whether or not an error was thrown. -/
theorem deployToKube_trace (fail : BridgeCall → Option String)
    (deployUsingServices deployUsingRoutes : Bool) (openshiftConsoleURL : Option String)
    (currentNamespace : String) (pod : PodBody) :
    (deployToKube fail deployUsingServices deployUsingRoutes openshiftConsoleURL
        currentNamespace pod).trace =
      (issueCalls fail (callList currentNamespace
        (prepareDeploy deployUsingServices deployUsingRoutes openshiftConsoleURL
          currentNamespace pod))).1 := by
  cases hr : (issueCalls fail (callList currentNamespace
      (prepareDeploy deployUsingServices deployUsingRoutes openshiftConsoleURL
        currentNamespace pod))).2 <;>
    simp [deployToKube, hr]

/-- The interval is started exactly when no attempted call threw. -/
theorem deployToKube_active_iff (fail : BridgeCall → Option String)
    (deployUsingServices deployUsingRoutes : Bool) (openshiftConsoleURL : Option String)
    (currentNamespace : String) (pod : PodBody) :
    (deployToKube fail deployUsingServices deployUsingRoutes openshiftConsoleURL
        currentNamespace pod).intervalActive = true ↔
      (issueCalls fail (callList currentNamespace
        (prepareDeploy deployUsingServices deployUsingRoutes openshiftConsoleURL
          currentNamespace pod))).2 = none := by
  cases hr : (issueCalls fail (callList currentNamespace
      (prepareDeploy deployUsingServices deployUsingRoutes openshiftConsoleURL
        currentNamespace pod))).2 <;>
    simp [deployToKube, hr]

/-- Claim C3: the attempted bridge calls are the pod creation first, then
one service creation per collected service in order, then one route
creation per collected route in order; the issued trace is a prefix of that
list; and the polling interval is started exactly when the whole list was
issued and every call succeeded. -/
theorem C3_sequential (fail : BridgeCall → Option String)
    (deployUsingServices deployUsingRoutes : Bool) (openshiftConsoleURL : Option String)
    (currentNamespace : String) (pod : PodBody) :
    callList currentNamespace
        (prepareDeploy deployUsingServices deployUsingRoutes openshiftConsoleURL
          currentNamespace pod) =
      BridgeCall.createPod currentNamespace
          (prepareDeploy deployUsingServices deployUsingRoutes openshiftConsoleURL
            currentNamespace pod).bodyPod ::
        ((prepareDeploy deployUsingServices deployUsingRoutes openshiftConsoleURL
            currentNamespace pod).servicesToCreate.map
              (BridgeCall.createService currentNamespace) ++
         (prepareDeploy deployUsingServices deployUsingRoutes openshiftConsoleURL
            currentNamespace pod).routesToCreate.map
              (BridgeCall.createRoute currentNamespace)) ∧
    (∃ k, (deployToKube fail deployUsingServices deployUsingRoutes openshiftConsoleURL
        currentNamespace pod).trace =
      (callList currentNamespace
        (prepareDeploy deployUsingServices deployUsingRoutes openshiftConsoleURL
          currentNamespace pod)).take k) ∧
    ((deployToKube fail deployUsingServices deployUsingRoutes openshiftConsoleURL
        currentNamespace pod).intervalActive = true ↔
      ((deployToKube fail deployUsingServices deployUsingRoutes openshiftConsoleURL
          currentNamespace pod).trace =
        callList currentNamespace
          (prepareDeploy deployUsingServices deployUsingRoutes openshiftConsoleURL
            currentNamespace pod) ∧
       ∀ c ∈ callList currentNamespace
          (prepareDeploy deployUsingServices deployUsingRoutes openshiftConsoleURL
            currentNamespace pod), fail c = none)) := by
  refine ⟨rfl, ?_, ?_⟩
  · rw [deployToKube_trace]
    exact issueCalls_fst_take fail _
  · rw [deployToKube_trace, deployToKube_active_iff]
    constructor
    · intro hnone
      exact ⟨issueCalls_fst_of_none fail _ hnone,
        (issueCalls_snd_none_iff fail _).mp hnone⟩
    · intro hall
      exact (issueCalls_snd_none_iff fail _).mpr hall.2

/-- Claim C5: when an attempted bridge call throws, `deployError` holds the
thrown error, `deployStarted` and `deployFinished` are reset to false and
no interval is started; any failing call in the attempted list guarantees
such a throw; and when every call succeeds, `deployError` stays empty,
`deployStarted` stays true and the interval is started. -/
theorem C5_error_handling (fail : BridgeCall → Option String)
    (deployUsingServices deployUsingRoutes : Bool) (openshiftConsoleURL : Option String)
    (currentNamespace : String) (pod : PodBody) :
    (∀ e, (issueCalls fail (callList currentNamespace
        (prepareDeploy deployUsingServices deployUsingRoutes openshiftConsoleURL
          currentNamespace pod))).2 = some e →
      (deployToKube fail deployUsingServices deployUsingRoutes openshiftConsoleURL
          currentNamespace pod).deployError = e ∧
      (deployToKube fail deployUsingServices deployUsingRoutes openshiftConsoleURL
          currentNamespace pod).deployStarted = false ∧
      (deployToKube fail deployUsingServices deployUsingRoutes openshiftConsoleURL
          currentNamespace pod).deployFinished = false ∧
      (deployToKube fail deployUsingServices deployUsingRoutes openshiftConsoleURL
          currentNamespace pod).intervalActive = false ∧
      (deployToKube fail deployUsingServices deployUsingRoutes openshiftConsoleURL
          currentNamespace pod).intervalDelay = none) ∧
    ((∃ c ∈ callList currentNamespace
        (prepareDeploy deployUsingServices deployUsingRoutes openshiftConsoleURL
          currentNamespace pod), fail c ≠ none) →
      ∃ e, (issueCalls fail (callList currentNamespace
        (prepareDeploy deployUsingServices deployUsingRoutes openshiftConsoleURL
          currentNamespace pod))).2 = some e) ∧
    ((∀ c ∈ callList currentNamespace
        (prepareDeploy deployUsingServices deployUsingRoutes openshiftConsoleURL
          currentNamespace pod), fail c = none) →
      (deployToKube fail deployUsingServices deployUsingRoutes openshiftConsoleURL
          currentNamespace pod).deployError = "" ∧
      (deployToKube fail deployUsingServices deployUsingRoutes openshiftConsoleURL
          currentNamespace pod).deployStarted = true ∧
      (deployToKube fail deployUsingServices deployUsingRoutes openshiftConsoleURL
          currentNamespace pod).deployFinished = false ∧
      (deployToKube fail deployUsingServices deployUsingRoutes openshiftConsoleURL
          currentNamespace pod).intervalActive = true) := by
  refine ⟨?_, ?_, ?_⟩
  · intro e he
    simp [deployToKube, he]
  · intro hex
    cases hr : (issueCalls fail (callList currentNamespace
        (prepareDeploy deployUsingServices deployUsingRoutes openshiftConsoleURL
          currentNamespace pod))).2 with
    | some e => exact ⟨e, rfl⟩
    | none =>
      obtain ⟨c, hc, hfc⟩ := hex
      exact absurd ((issueCalls_snd_none_iff fail _).mp hr c hc) hfc
  · intro hall
    have hr := (issueCalls_snd_none_iff fail (callList currentNamespace
        (prepareDeploy deployUsingServices deployUsingRoutes openshiftConsoleURL
          currentNamespace pod))).mpr hall
    simp [deployToKube, hr]

/-- A minimal concrete pod body used by witnesses. -/
def podW : PodBody :=
  { metadata := { name := "pod", creationTimestamp := none, rest := "" },
    spec := none, rest := "" }

/-- Claim C5, witness: a deployment whose pod creation throws `boom`. -/
theorem C5_witness :
    (deployToKube (fun _ => some "boom") true true none "default" podW).deployError =
      "boom" ∧
    (deployToKube (fun _ => some "boom") true true none "default" podW).deployStarted =
      false ∧
    (deployToKube (fun _ => some "boom") true true none "default" podW).deployFinished =
      false ∧
    (deployToKube (fun _ => some "boom") true true none "default" podW).intervalActive =
      false ∧
    (deployToKube (fun _ => some "boom") true true none "default" podW).intervalDelay =
      none :=
  (C5_error_handling (fun _ => some "boom") true true none "default" podW).1 "boom" rfl

/-- Claim C9: across `deployToKube`'s rewriting, `spec.volumes` is always
deleted, `volumeMounts` is deleted exactly when services are used,
`creationTimestamp` is converted to a `Date` when present, and every other
field of the pod body (its top level, its metadata, its spec, each
container and each port except the deleted `hostPort`) is unchanged. -/
theorem C9_frame (deployUsingServices deployUsingRoutes : Bool)
    (openshiftConsoleURL : Option String) (currentNamespace : String) (pod : PodBody) :
    (prepareDeploy deployUsingServices deployUsingRoutes openshiftConsoleURL
        currentNamespace pod).bodyPod.rest = pod.rest ∧
    (prepareDeploy deployUsingServices deployUsingRoutes openshiftConsoleURL
        currentNamespace pod).bodyPod.metadata.name = pod.metadata.name ∧
    (prepareDeploy deployUsingServices deployUsingRoutes openshiftConsoleURL
        currentNamespace pod).bodyPod.metadata.rest = pod.metadata.rest ∧
    (prepareDeploy deployUsingServices deployUsingRoutes openshiftConsoleURL
        currentNamespace pod).bodyPod.metadata.creationTimestamp =
      pod.metadata.creationTimestamp.map newDate ∧
    (pod.spec = none →
      (prepareDeploy deployUsingServices deployUsingRoutes openshiftConsoleURL
        currentNamespace pod).bodyPod.spec = none) ∧
    (∀ sp, pod.spec = some sp →
      (prepareDeploy deployUsingServices deployUsingRoutes openshiftConsoleURL
        currentNamespace pod).bodyPod.spec = some
        { volumes := none
          containers :=
            if deployUsingServices then
              sp.containers.map (fun c =>
                { c with
                  volumeMounts := none
                  ports := c.ports.map (fun p =>
                    if truthyNat p.hostPort then { p with hostPort := none } else p) })
            else sp.containers
          rest := sp.rest }) := by
  rcases pod with ⟨⟨mname, mts, mrest⟩, spec, prest⟩
  rcases spec with _ | ⟨vols, conts, srest⟩
  · cases mts <;> by_cases hus : deployUsingServices <;>
      simp [prepareDeploy, deleteVolumes, convertCreationTimestamp, hus]
  · cases mts <;> cases vols <;> by_cases hus : deployUsingServices <;>
      simp [prepareDeploy, deleteVolumes, convertCreationTimestamp, processContainers_eq,
        hus]

/-- A concrete pod body with a volume, a mount and a timestamp. -/
def podRich : PodBody :=
  { metadata := { name := "pod", creationTimestamp := some { isDate := false, v := 7 },
                  rest := "labels" }
    spec := some
      { volumes := some "vol"
        containers := [{ volumeMounts := some "mnt"
                         ports := [{ name := some "http", hostPort := some 8080,
                                     containerPort := 80, protocol := none,
                                     rest := "extra" }]
                         rest := "image" }]
        rest := "spec-extra" }
    rest := "top-extra" }

/-- Claim C9, witness: the frame conditions evaluated on a concrete pod. -/
theorem C9_witness :
    (prepareDeploy true true none "ns" podRich).bodyPod.rest = podRich.rest ∧
    (prepareDeploy true true none "ns" podRich).bodyPod.metadata.name =
      podRich.metadata.name ∧
    (prepareDeploy true true none "ns" podRich).bodyPod.spec = some
      { volumes := none
        containers :=
          if true then
            ([{ volumeMounts := some "mnt"
                ports := [{ name := some "http", hostPort := some 8080,
                            containerPort := 80, protocol := none,
                            rest := "extra" }]
                rest := "image" }] : List Container).map (fun c =>
              { c with
                volumeMounts := none
                ports := c.ports.map (fun p =>
                  if truthyNat p.hostPort then { p with hostPort := none } else p) })
          else [{ volumeMounts := some "mnt"
                  ports := [{ name := some "http", hostPort := some 8080,
                              containerPort := 80, protocol := none,
                              rest := "extra" }]
                  rest := "image" }]
        rest := "spec-extra" } := by
  obtain ⟨h1, h2, _, _, _, h6⟩ := C9_frame true true none "ns" podRich
  exact ⟨h1, h2, h6 _ rfl⟩

/-- Claim C1: with services enabled, exactly one service is collected per
container port with a truthy `hostPort`, carrying the claimed name,
namespace, single port entry (port = hostPort, targetPort = containerPort,
protocol defaulted to TCP) and selector, and the `hostPort` field is
deleted from that port in the pod body; with services disabled no service
is collected and the containers (hence every `hostPort`) are untouched. -/
theorem C1_services (deployUsingRoutes : Bool) (openshiftConsoleURL : Option String)
    (currentNamespace : String) (pod : PodBody) (sp : PodSpec) (hsp : pod.spec = some sp) :
    (prepareDeploy true deployUsingRoutes openshiftConsoleURL currentNamespace
        pod).servicesToCreate =
      sp.containers.flatMap (fun c =>
        (c.ports.filter (fun p => truthyNat p.hostPort)).map (fun p =>
          { apiVersion := "v1"
            kind := "Service"
            name := pod.metadata.name ++ "-" ++ toString (p.hostPort.getD 0)
            nameSpace := currentNamespace
            ports := [{ name := p.name
                        port := p.hostPort.getD 0
                        protocol := jsOrStr p.protocol "TCP"
                        targetPort := p.containerPort }]
            selectorApp := pod.metadata.name })) ∧
    (∀ spOut, (prepareDeploy true deployUsingRoutes openshiftConsoleURL currentNamespace
        pod).bodyPod.spec = some spOut →
      spOut.containers = sp.containers.map (fun c =>
        { c with
          volumeMounts := none
          ports := c.ports.map (fun p =>
            if truthyNat p.hostPort then { p with hostPort := none } else p) })) ∧
    (prepareDeploy false deployUsingRoutes openshiftConsoleURL currentNamespace
        pod).servicesToCreate = [] ∧
    (∀ spOut, (prepareDeploy false deployUsingRoutes openshiftConsoleURL currentNamespace
        pod).bodyPod.spec = some spOut → spOut.containers = sp.containers) := by
  have hfun : (fun p : ContainerPort =>
      ({ apiVersion := "v1"
         kind := "Service"
         name := pod.metadata.name ++ "-" ++ toString (p.hostPort.getD 0)
         nameSpace := currentNamespace
         ports := [{ name := p.name
                     port := p.hostPort.getD 0
                     protocol := jsOrStr p.protocol "TCP"
                     targetPort := p.containerPort }]
         selectorApp := pod.metadata.name } : Service)) =
      mkService pod.metadata.name currentNamespace := by
    funext p
    rfl
  obtain ⟨h1, h2, h3, h4, h5, h6⟩ :=
    C9_frame true deployUsingRoutes openshiftConsoleURL currentNamespace pod
  obtain ⟨g1, g2, g3, g4, g5, g6⟩ :=
    C9_frame false deployUsingRoutes openshiftConsoleURL currentNamespace pod
  refine ⟨?_, ?_, ?_, ?_⟩
  · rcases pod with ⟨⟨mname, mts, mrest⟩, spec, prest⟩
    cases hsp
    rcases sp with ⟨vols, conts, srest⟩
    cases vols <;>
      simp [prepareDeploy, deleteVolumes, processContainers_eq, hfun]
  · intro spOut hout
    have := h6 sp hsp
    rw [this] at hout
    injection hout with hout
    rw [← hout]
    simp
  · rcases pod with ⟨⟨mname, mts, mrest⟩, spec, prest⟩
    cases hsp
    rcases sp with ⟨vols, conts, srest⟩
    cases vols <;>
      simp [prepareDeploy, deleteVolumes]
  · intro spOut hout
    have := g6 sp hsp
    rw [this] at hout
    injection hout with hout
    rw [← hout]
    simp

/-- Claim C1, witness: the services collected for a concrete pod with one
container exposing hostPort 8080 on containerPort 80. -/
theorem C1_witness :
    (prepareDeploy true true none "ns" podRich).servicesToCreate =
      [{ apiVersion := "v1", kind := "Service", name := "pod-8080", nameSpace := "ns",
         ports := [{ name := some "http", port := 8080, protocol := "TCP",
                     targetPort := 80 }],
         selectorApp := "pod" }] := by
  have h := (C1_services true none "ns" podRich
    { volumes := some "vol"
      containers := [{ volumeMounts := some "mnt"
                       ports := [{ name := some "http", hostPort := some 8080,
                                   containerPort := 80, protocol := none,
                                   rest := "extra" }]
                       rest := "image" }]
      rest := "spec-extra" } rfl).1
  rw [h]
  decide

/-- Claim C2: a route is collected for a container port exactly when the
port's `hostPort` is truthy, services are used, routes are enabled and the
OpenShift console URL is set; each route carries the claimed name and
namespace, points its `spec.to` at the service of the same name, and its
`spec.port.targetPort` is the port's `containerPort`. -/
theorem C2_routes (deployUsingServices deployUsingRoutes : Bool)
    (openshiftConsoleURL : Option String) (currentNamespace : String)
    (pod : PodBody) (sp : PodSpec) (hsp : pod.spec = some sp) :
    (prepareDeploy deployUsingServices deployUsingRoutes openshiftConsoleURL
        currentNamespace pod).routesToCreate =
      if deployUsingServices && deployUsingRoutes && truthyStr openshiftConsoleURL then
        sp.containers.flatMap (fun c =>
          (c.ports.filter (fun p => truthyNat p.hostPort)).map (fun p =>
            { apiVersion := "route.openshift.io/v1"
              kind := "Route"
              name := pod.metadata.name ++ "-" ++ toString (p.hostPort.getD 0)
              nameSpace := currentNamespace
              targetPort := p.containerPort
              toKind := "Service"
              toName := pod.metadata.name ++ "-" ++ toString (p.hostPort.getD 0) }))
      else [] := by
  have hfun : (fun p : ContainerPort =>
      ({ apiVersion := "route.openshift.io/v1"
         kind := "Route"
         name := pod.metadata.name ++ "-" ++ toString (p.hostPort.getD 0)
         nameSpace := currentNamespace
         targetPort := p.containerPort
         toKind := "Service"
         toName := pod.metadata.name ++ "-" ++ toString (p.hostPort.getD 0) } : RouteObj)) =
      mkRoute pod.metadata.name currentNamespace := by
    funext p
    rfl
  rcases pod with ⟨⟨mname, mts, mrest⟩, spec, prest⟩
  cases hsp
  rcases sp with ⟨vols, conts, srest⟩
  by_cases hus : deployUsingServices <;> by_cases hur : deployUsingRoutes <;>
    by_cases hc : truthyStr openshiftConsoleURL <;> cases vols <;>
      simp [prepareDeploy, deleteVolumes, processContainers_eq, hfun, hus, hur, hc]

/-- Claim C2, witness: the route collected for the concrete pod on an
OpenShift cluster with routes enabled. -/
theorem C2_witness :
    (prepareDeploy true true (some "https://console") "ns" podRich).routesToCreate =
      [{ apiVersion := "route.openshift.io/v1", kind := "Route", name := "pod-8080",
         nameSpace := "ns", targetPort := 80, toKind := "Service",
         toName := "pod-8080" }] := by
  have h := C2_routes true true (some "https://console") "ns" podRich
    { volumes := some "vol"
      containers := [{ volumeMounts := some "mnt"
                       ports := [{ name := some "http", hostPort := some 8080,
                                   containerPort := 80, protocol := none,
                                   rest := "extra" }]
                       rest := "image" }]
      rest := "spec-extra" } rfl
  rw [h]
  decide

/-- A provider with two container connections, both with a changed status. -/
def cexProvider : ProviderInfo :=
  { internalId := "p1", name := "prov",
    containerConnections := [{ name := "c1", status := "started" },
                             { name := "c2", status := "started" }],
    kubernetesConnections := [] }

/-- An initial page state in which both of the provider's connections are
queued for restart. -/
def cexState : PageState :=
  { containerConnectionStatus := [],
    restartingQueue := [{ provider := "p1", container := "c1", loggerHandlerKey := 1 },
                        { provider := "p1", container := "c2", loggerHandlerKey := 2 }],
    startedConnections := [] }

/-- Claim C6, counterexample: connection `c2` was queued for restart when the
store update began, yet its written entry records `inProgress` false with no
action and `startConnectionProvider` is never invoked for it — processing
`c1` first removed `c2`'s queue entry. -/
theorem C6_counterexample :
    IConnectionRestart.mk "p1" "c2" 2 ∈ cexState.restartingQueue ∧
    mapGet (onProvidersUpdate [cexProvider] cexState).containerConnectionStatus
        (getProviderConnectionName "prov" "c2") =
      some { inProgress := false, action := none, status := "started" } ∧
    (onProvidersUpdate [cexProvider] cexState).startedConnections = [("p1", "c1", 1)] := by
  decide

/-- Claim C6 as amended: when a connection is processed during a store
update, its entry is written only when it has no entry yet or the stored
status differs; when written, the entry records an in-progress restart (and
`startConnectionProvider` is invoked) exactly when an entry for this
provider and connection is still in the restarting queue at that moment —
the lookup then drops every queue entry sharing the provider or the
container name — and otherwise records `inProgress` false, no action and
the current status, leaving the queue untouched. -/
theorem C6_amended (providerInternalId providerName : String) (conn : ConnInfo)
    (st : PageState) :
    (∀ e, mapGet st.containerConnectionStatus
        (getProviderConnectionName providerName conn.name) = some e →
      e.status = conn.status →
      processConnection providerInternalId providerName conn st = st) ∧
    ((mapGet st.containerConnectionStatus
        (getProviderConnectionName providerName conn.name) = none ∨
      (∃ e, mapGet st.containerConnectionStatus
          (getProviderConnectionName providerName conn.name) = some e ∧
        e.status ≠ conn.status)) →
      (∀ r, (st.restartingQueue.filter (fun c =>
            c.provider == providerInternalId && c.container == conn.name)).head? =
          some r →
        (processConnection providerInternalId providerName conn
            st).containerConnectionStatus =
          mapSet st.containerConnectionStatus
            (getProviderConnectionName providerName conn.name)
            { inProgress := true, action := some "restart", status := conn.status } ∧
        (processConnection providerInternalId providerName conn st).startedConnections =
          st.startedConnections ++ [(providerInternalId, conn.name, r.loggerHandlerKey)] ∧
        (processConnection providerInternalId providerName conn st).restartingQueue =
          st.restartingQueue.filter (fun c =>
            c.provider != providerInternalId && c.container != conn.name)) ∧
      ((st.restartingQueue.filter (fun c =>
            c.provider == providerInternalId && c.container == conn.name)).head? = none →
        (processConnection providerInternalId providerName conn
            st).containerConnectionStatus =
          mapSet st.containerConnectionStatus
            (getProviderConnectionName providerName conn.name)
            { inProgress := false, action := none, status := conn.status } ∧
        (processConnection providerInternalId providerName conn st).startedConnections =
          st.startedConnections ∧
        (processConnection providerInternalId providerName conn st).restartingQueue =
          st.restartingQueue)) := by
  constructor
  · intro e he hst
    simp [processConnection, he, hst]
  · intro hneed
    constructor
    · intro r hr
      rcases hneed with h | ⟨e, he, hne⟩
      · simp [processConnection, h, getContainerRestarting, hr]
      · simp [processConnection, he, bne_iff_ne, hne, getContainerRestarting, hr]
    · intro hr
      rcases hneed with h | ⟨e, he, hne⟩
      · simp [processConnection, h, getContainerRestarting, hr]
      · simp [processConnection, he, bne_iff_ne, hne, getContainerRestarting, hr]

/-- A page state with one queued restart, used by the C6 witness. -/
def stW : PageState :=
  { containerConnectionStatus := [],
    restartingQueue := [{ provider := "p", container := "c", loggerHandlerKey := 5 }],
    startedConnections := [] }

/-- Claim C6, witness for the amended theorem: a connection with no entry
yet whose restart is still queued is written as an in-progress restart and
started with the queued logger key. -/
theorem C6_witness :
    (processConnection "p" "prov" { name := "c", status := "started" }
        stW).containerConnectionStatus =
      mapSet stW.containerConnectionStatus (getProviderConnectionName "prov" "c")
        { inProgress := true, action := some "restart", status := "started" } ∧
    (processConnection "p" "prov" { name := "c", status := "started" }
        stW).startedConnections =
      stW.startedConnections ++ [("p", "c", 5)] ∧
    (processConnection "p" "prov" { name := "c", status := "started" }
        stW).restartingQueue =
      stW.restartingQueue.filter (fun c => c.provider != "p" && c.container != "c") :=
  ((C6_amended "p" "prov" { name := "c", status := "started" } stW).2 (Or.inl rfl)).1
    { provider := "p", container := "c", loggerHandlerKey := 5 } rfl

/-- Claim C3, witness: when every bridge call succeeds on a concrete pod,
the polling interval is started. -/
theorem C3_witness :
    (deployToKube (fun _ => none) true true none "ns" podRich).intervalActive = true :=
  (C3_sequential (fun _ => none) true true none "ns" podRich).2.2.mpr
    ⟨by decide, fun c _ => rfl⟩
